import Mathlib

/-!
Verification of the cleaning / filtering / aggregation core of
`analytics.py` (NYC motor-vehicle-collision analysis).

The pandas dataframes are modelled as Lean lists of records; numeric
columns (latitude, longitude) are modelled as exact rationals; the
`CRASH TIME` datetime column is modelled as a `Timestamp` structure with
the accessor views (`year`, `month`, `day_name`, `hour`) that the source
uses.  Every definition is translated from the source file
`src/analytics.py`; line numbers in the doc comments refer to it.
-/

namespace NycCollision

/-- The combined date/time value produced by
`pd.to_datetime(..., format='%m/%d/%Y %H:%M')` (analytics.py line 165).
Fields mirror the components that the format string parses. -/
structure Timestamp where
  year : Nat
  month : Nat
  day : Nat
  hour : Nat
  minute : Nat
deriving DecidableEq, Repr

/-- Leap-year test of the proleptic Gregorian calendar (as used by
`pandas.Timestamp`). -/
def isLeapYear (y : Nat) : Bool :=
  (y % 4 == 0 && y % 100 != 0) || y % 400 == 0

/-- Days in the months preceding month `m` in a non-leap year. -/
def daysBeforeMonth (m : Nat) : Nat :=
  [0, 0, 31, 59, 90, 120, 151, 181, 212, 243, 273, 304, 334].getD m 0

/-- Day-of-year of a timestamp (1-based). -/
def dayOfYear (t : Timestamp) : Nat :=
  daysBeforeMonth t.month + t.day +
    (if isLeapYear t.year && t.month > 2 then 1 else 0)

/-- Rata-die day number: days elapsed from the proleptic Gregorian epoch
(0001-01-01 is day 1). -/
def rataDie (t : Timestamp) : Nat :=
  365 * (t.year - 1) + (t.year - 1) / 4 - (t.year - 1) / 100 +
    (t.year - 1) / 400 + dayOfYear t

/-- The weekday names in the Sunday-first order of the source's `DAYS`
table (analytics.py line 97). -/
def DAYS : List String :=
  ["Sunday", "Monday", "Tuesday", "Wednesday", "Thursday", "Friday", "Saturday"]

/-- The weekday name of a timestamp, as `Series.dt.day_name()` returns it.
Rata-die day 1 (0001-01-01) was a Monday, hence the index `rataDie t % 7`
into the Sunday-first list. -/
def dayName (t : Timestamp) : String :=
  DAYS.getD (rataDie t % 7) "Sunday"

/-- One row of the collision table as `read_data` first loads it
(analytics.py lines 158-166): the thirteen kept columns, with `CRASH DATE`
and `CRASH TIME` already merged into one timestamp.  A missing `BOROUGH`
cell (pandas `NaN`) is `none`; the latitude / longitude columns may also
be missing before the `fillna` step. -/
structure RawRecord where
  crashTime : Timestamp
  borough : Option String
  latitude : Option ℚ
  longitude : Option ℚ
  personsInjured : Nat
  personsKilled : Nat
  pedestriansInjured : Nat
  pedestriansKilled : Nat
  cyclistInjured : Nat
  cyclistKilled : Nat
  motoristInjured : Nat
  motoristKilled : Nat
deriving DecidableEq, Repr

/-- A row after `collision_df.fillna({'LATITUDE': 0, 'LONGITUDE': 0})`
(analytics.py line 169): the coordinate columns are total. -/
structure Record where
  crashTime : Timestamp
  borough : Option String
  latitude : ℚ
  longitude : ℚ
  personsInjured : Nat
  personsKilled : Nat
  pedestriansInjured : Nat
  pedestriansKilled : Nat
  cyclistInjured : Nat
  cyclistKilled : Nat
  motoristInjured : Nat
  motoristKilled : Nat
deriving DecidableEq, Repr

/-- The `fillna` step of analytics.py line 169: missing latitude and
longitude become the sentinel `0`. -/
def fillNaCoords (r : RawRecord) : Record :=
  { crashTime := r.crashTime
    borough := r.borough
    latitude := r.latitude.getD 0
    longitude := r.longitude.getD 0
    personsInjured := r.personsInjured
    personsKilled := r.personsKilled
    pedestriansInjured := r.pedestriansInjured
    pedestriansKilled := r.pedestriansKilled
    cyclistInjured := r.cyclistInjured
    cyclistKilled := r.cyclistKilled
    motoristInjured := r.motoristInjured
    motoristKilled := r.motoristKilled }

/-- Minimum latitude of NYC, `40.49` (analytics.py line 69).  Decimal
constants are written with `mkRat` so that they evaluate inside the
kernel; the value is exactly the source's decimal literal. -/
def MIN_LATITUDE : ℚ := mkRat 4049 100
/-- Maximum latitude of NYC, `40.92` (analytics.py line 71). -/
def MAX_LATITUDE : ℚ := mkRat 4092 100
/-- Minimum longitude of NYC, `-74.25` (analytics.py line 74). -/
def MIN_LONGITUDE : ℚ := mkRat (-7425) 100
/-- Maximum longitude of NYC, `-73.7` (analytics.py line 75). -/
def MAX_LONGITUDE : ℚ := mkRat (-737) 10

/-- The selected years, `range(2013, 2021)` (analytics.py line 78). -/
def YEARS : List Nat := List.range' 2013 8

/-- The borough-to-centroid table `BOROUGH_COORDS` (analytics.py
lines 42-48), in its declared insertion order. -/
def BOROUGH_COORDS : List (String × (ℚ × ℚ)) :=
  [("STATEN ISLAND", (mkRat 4058 100, mkRat 7415 100)),
   ("BRONX", (mkRat 4084 100, mkRat 7386 100)),
   ("QUEENS", (mkRat 4073 100, mkRat 7379 100)),
   ("MANHATTAN", (mkRat 4078 100, mkRat 7397 100)),
   ("BROOKLYN", (mkRat 4068 100, mkRat 7394 100))]

/-- The month-number-to-name table `MONTHS` (analytics.py lines 81-94),
in its declared insertion order. -/
def MONTHS : List (Nat × String) :=
  [(1, "January"), (2, "February"), (3, "March"), (4, "April"),
   (5, "May"), (6, "June"), (7, "July"), (8, "August"),
   (9, "September"), (10, "October"), (11, "November"), (12, "December")]

/-- The range of hours `HOURS = range(0, 24)` (analytics.py line 100). -/
def HOURS : List Nat := List.range 24

/-- The mask of analytics.py line 173,
`cleaned_df['BOROUGH'].notnull() | cleaned_df['LONGITUDE'] != 0`.
Python parses this as `(notnull | LONGITUDE) != 0` because `|` binds
tighter than `!=`; pandas casts the float operand of `|` to bool when the
other operand is boolean (`fill_bool` in `pandas.core.ops`, nonzero maps
to `True`), and comparing the resulting boolean mask with `0` leaves it
unchanged, so the row mask evaluates to exactly the disjunction
"borough is non-null or longitude is nonzero". -/
def boroughNotnullOrLongitudeNonzero (r : Record) : Bool :=
  r.borough.isSome || r.longitude != 0

/-- The Queensboro-Bridge correction of analytics.py line 176:
`cleaned_df.loc[cleaned_df['LONGITUDE'] == -201.23706,
['BOROUGH', 'LONGITUDE']] = ['MANHATTAN', -73.95337]`. -/
def fixAnomaly (r : Record) : Record :=
  if r.longitude = mkRat (-20123706) 100000 then
    { r with borough := some "MANHATTAN", longitude := mkRat (-7395337) 100000 }
  else r

/-- The city-bounding-box mask of analytics.py lines 179-180:
`within_lat & within_long`, with strict inequalities on both sides. -/
def withinNyc (r : Record) : Bool :=
  (decide (MIN_LATITUDE < r.latitude) && decide (r.latitude < MAX_LATITUDE)) &&
    (decide (MIN_LONGITUDE < r.longitude) && decide (r.longitude < MAX_LONGITUDE))

/-- The sentinel mask of analytics.py line 182, translated verbatim:
`no_lat_long = ((cleaned_df['LATITUDE'] == 0) & (cleaned_df['LATITUDE'] == 0))`.
Note that the source tests `LATITUDE` in both conjuncts; `LONGITUDE` is
never consulted by this mask. -/
def noLatLong (r : Record) : Bool :=
  decide (r.latitude = 0) && decide (r.latitude = 0)

/-- A value passed as the third argument of `df_filter_by`: the source
calls it with borough names and weekday names (strings) and with years,
months and hours (integers). -/
inductive ColValue where
  | str (s : String)
  | nat (n : Nat)
deriving DecidableEq, Repr

/-- The row predicate behind each branch of `df_filter_by`
(analytics.py lines 103-116).  Comparisons between a column and a value
of the wrong type are elementwise `False` in pandas, hence the catch-all
`false` arms; a missing borough (`NaN`) compares unequal to everything. -/
def recMatches (r : Record) (column : String) (value : ColValue) : Bool :=
  if column = "borough" then
    match value, r.borough with
    | .str s, some b => b == s
    | _, _ => false
  else if column = "year" then
    match value with
    | .nat n => r.crashTime.year == n
    | _ => false
  else if column = "month" then
    match value with
    | .nat n => r.crashTime.month == n
    | _ => false
  else if column = "day" then
    match value with
    | .str s => dayName r.crashTime == s
    | _ => false
  else if column = "hour" then
    match value with
    | .nat n => r.crashTime.hour == n
    | _ => false
  else false

/-- `df_filter_by` (analytics.py lines 103-116): an `if/elif` chain over
the five recognized column selectors, each returning the selected rows;
an unrecognized selector falls off the end of the chain, which in Python
returns `None` — modelled by `Option`. -/
def df_filter_by (df : List Record) (column : String) (value : ColValue) :
    Option (List Record) :=
  if column = "borough" then some (df.filter (fun r => recMatches r "borough" value))
  else if column = "year" then some (df.filter (fun r => recMatches r "year" value))
  else if column = "month" then some (df.filter (fun r => recMatches r "month" value))
  else if column = "day" then some (df.filter (fun r => recMatches r "day" value))
  else if column = "hour" then some (df.filter (fun r => recMatches r "hour" value))
  else none

/-- The view of `df_filter_by` used at the call sites inside the
aggregators, all of which pass one of the five recognized column
selectors (so the `Option` is always `some` there and the default is
never consulted). -/
def filterBy (df : List Record) (column : String) (value : ColValue) :
    List Record :=
  (df_filter_by df column value).getD []

/-- The cleaning pipeline of `read_data` (analytics.py lines 153-194),
from the already-parsed table to the pair
`(cleaned_df, year_df_dict)` that the function returns.  The CSV parse
and the optional `to_csv` side effects are outside the model. -/
def read_data (raw : List RawRecord) : List Record × List (Nat × List Record) :=
  let collision_df := raw.map fillNaCoords
  let cleaned1 := collision_df.filter boroughNotnullOrLongitudeNonzero
  let cleaned2 := cleaned1.map fixAnomaly
  let cleaned_df := cleaned2.filter (fun r => withinNyc r || noLatLong r)
  (cleaned_df,
   YEARS.map (fun year => (year, filterBy cleaned_df "year" (.nat year))))

/-- A key of a count table.  `query_accidents_by_value_and_year` keys its
`counts` dictionary by `column_dict[column_value]` when `column_dict` is
a dict (month names from `MONTHS`, centroid coordinate pairs from
`BOROUGH_COORDS`) and by `column_value` itself when it is a list or
range (weekday names, hours). -/
inductive TableKey where
  | str (s : String)
  | nat (n : Nat)
  | pair (lat long : ℚ)
deriving DecidableEq, Repr

/-- The `column_dict` argument of `query_accidents_by_value_and_year`:
either a Python dict (an insertion-ordered association of filter values
to display keys) or a plain sequence of values. -/
inductive ColumnDict where
  | dict (entries : List (ColValue × TableKey))
  | list (values : List ColValue)

/-- The pairs `(column_value, counts key)` that one pass of the inner
loop of `query_accidents_by_value_and_year` iterates, in order: for a
dict, its entries (`column_dict.keys()` paired with
`column_dict[column_value]`); for a list, each value keys its own
bucket. -/
def catPairs : ColumnDict → List (ColValue × TableKey)
  | .dict entries => entries
  | .list values =>
      values.map (fun v => (v, match v with | .str s => .str s | .nat n => .nat n))

/-- One `counts[key].append(v)` step on a `defaultdict(list)`: the first
touch of a key inserts it at the end of the iteration order, later
touches extend its list in place. -/
def ddAppend {κ β : Type} [DecidableEq κ] :
    List (κ × List β) → κ → β → List (κ × List β)
  | [], k, v => [(k, [v])]
  | (k', vs) :: rest, k, v =>
      if k' = k then (k', vs ++ [v]) :: rest else (k', vs) :: ddAppend rest k v

/-- The `column_dict` actually passed for the borough dimension:
`BOROUGH_COORDS` (analytics.py line 493), whose dict values — and hence
the count-table keys — are the centroid coordinate pairs. -/
def boroughColumnDict : ColumnDict :=
  .dict (BOROUGH_COORDS.map (fun bc => (.str bc.1, .pair bc.2.1 bc.2.2)))

/-- The `column_dict` passed for the month dimension: `MONTHS`
(analytics.py line 504), mapping month numbers to month names. -/
def monthsColumnDict : ColumnDict :=
  .dict (MONTHS.map (fun ms => (.nat ms.1, .str ms.2)))

/-- The `column_dict` passed for the weekday dimension: the list `DAYS`
(analytics.py line 513). -/
def daysColumnList : ColumnDict := .list (DAYS.map .str)

/-- The hours enumeration `HOURS` as a `column_dict`-style sequence. -/
def hoursColumnList : ColumnDict := .list (HOURS.map .nat)

/-- `query_accidents_by_value_and_year` (analytics.py lines 197-224):
for each year of `YEARS`, filter the cleaned set to that year, then for
each category value filter again and append the resulting row count to
that category's list in the `counts` defaultdict. -/
def query_accidents_by_value_and_year (cleaned_df : List Record)
    (column_name : String) (column_dict : ColumnDict) :
    List (TableKey × List Nat) :=
  YEARS.foldl
    (fun counts year =>
      let year_df := filterBy cleaned_df "year" (.nat year)
      (catPairs column_dict).foldl
        (fun cs vk => ddAppend cs vk.2 (filterBy year_df column_name vk.1).length)
        counts)
    []

/-! ### Shared concrete inputs for witnesses and counterexamples -/

/-- Timestamp shorthand for concrete test rows (minute fixed to 0). -/
def sampleTime (y m d h : Nat) : Timestamp :=
  { year := y, month := m, day := d, hour := h, minute := 0 }

/-- A cleaned-shape row with the given year, borough and coordinates;
the casualty counters are 0 and the crash happened on January 1, 0:00. -/
def sampleRecord (y : Nat) (b : Option String) (la lo : ℚ) : Record :=
  { crashTime := sampleTime y 1 1 0, borough := b, latitude := la,
    longitude := lo, personsInjured := 0, personsKilled := 0,
    pedestriansInjured := 0, pedestriansKilled := 0, cyclistInjured := 0,
    cyclistKilled := 0, motoristInjured := 0, motoristKilled := 0 }

/-- A raw-shape row with the given year, borough and optional coordinates. -/
def sampleRaw (y : Nat) (b : Option String) (la lo : Option ℚ) : RawRecord :=
  { crashTime := sampleTime y 1 1 0, borough := b, latitude := la,
    longitude := lo, personsInjured := 0, personsKilled := 0,
    pedestriansInjured := 0, pedestriansKilled := 0, cyclistInjured := 0,
    cyclistKilled := 0, motoristInjured := 0, motoristKilled := 0 }

/-- A raw row in Queens with valid in-city coordinates (40.7, -73.9). -/
def rawQueens2013 : RawRecord :=
  sampleRaw 2013 (some "QUEENS") (some (mkRat 407 10)) (some (mkRat (-739) 10))

/-! ### Helper lemmas -/

/-- Two boolean row filters applied in sequence commute. -/
theorem filter_comm_bool {α : Type} (p q : α → Bool) (l : List α) :
    (l.filter p).filter q = (l.filter q).filter p := by
  induction l with
  | nil => rfl
  | cons a l ih => by_cases hp : p a <;> by_cases hq : q a <;> simp [hp, hq, ih]

/-! ### Claims about the cleaning pass -/

/-- C1: every record in the cleaned set produced by `read_data` has a
non-null borough or a nonzero longitude; equivalently, cleaning excludes
every record with a null borough and zero (sentinel) longitude. -/
theorem cleaned_borough_notnull_or_longitude_nonzero
    (raw : List RawRecord) (r : Record) (hr : r ∈ (read_data raw).1) :
    r.borough ≠ none ∨ r.longitude ≠ 0 := by
  have hr' : r ∈ (((raw.map fillNaCoords).filter
      boroughNotnullOrLongitudeNonzero).map fixAnomaly).filter
      (fun r => withinNyc r || noLatLong r) := hr
  obtain ⟨hmem2, -⟩ := List.mem_filter.mp hr'
  obtain ⟨r', hr1, hfix⟩ := List.mem_map.mp hmem2
  have hmask := (List.mem_filter.mp hr1).2
  simp only [boroughNotnullOrLongitudeNonzero, Bool.or_eq_true,
    Option.isSome_iff_ne_none, bne_iff_ne, ne_eq] at hmask
  by_cases hl : r'.longitude = mkRat (-20123706) 100000
  · left
    rw [← hfix]
    simp [fixAnomaly, hl]
  · have heq : fixAnomaly r' = r' := by simp [fixAnomaly, hl]
    rw [heq] at hfix
    subst hfix
    simpa using hmask

/-- Witness for C1: a concrete Queens row survives cleaning and satisfies
the invariant. -/
theorem cleaned_borough_notnull_or_longitude_nonzero_witness :
    fillNaCoords rawQueens2013 ∈ (read_data [rawQueens2013]).1 ∧
      ((fillNaCoords rawQueens2013).borough ≠ none ∨
        (fillNaCoords rawQueens2013).longitude ≠ 0) :=
  ⟨by decide,
   cleaned_borough_notnull_or_longitude_nonzero [rawQueens2013] _ (by decide)⟩

/-- C2 (failing input): the record with borough QUEENS, latitude `0` and
longitude `-73.9` is retained in the cleaned set although its coordinate
pair is neither strictly inside the city bounding box nor the `(0, 0)`
sentinel.  The sentinel mask on analytics.py line 182 tests
`LATITUDE == 0` in both conjuncts, so a zero latitude alone bypasses the
bounding-box check, contradicting the variable name `no_lat_long` and
the comment above it. -/
theorem zero_latitude_row_bypasses_bounding_box :
    sampleRecord 2013 (some "QUEENS") 0 (mkRat (-739) 10) ∈
        (read_data [sampleRaw 2013 (some "QUEENS") (some 0)
          (some (mkRat (-739) 10))]).1 ∧
      ¬((MIN_LATITUDE < (0 : ℚ) ∧ (0 : ℚ) < MAX_LATITUDE ∧
          MIN_LONGITUDE < mkRat (-739) 10 ∧ mkRat (-739) 10 < MAX_LONGITUDE) ∨
        ((0 : ℚ) = 0 ∧ mkRat (-739) 10 = 0)) := by
  constructor
  · decide
  · decide

/-- C3: the anomaly correction inside `read_data` (the `cleaned_df.loc`
assignment, modelled by `fixAnomaly` mapped over the working set) sends
every record with longitude exactly `-201.23706` to borough `MANHATTAN`
and longitude `-73.95337`, and leaves every other record unchanged. -/
theorem fix_anomaly_exactly_on_sentinel_longitude :
    (∀ raw : List RawRecord,
      (read_data raw).1 =
        (((raw.map fillNaCoords).filter
            boroughNotnullOrLongitudeNonzero).map fixAnomaly).filter
          (fun r => withinNyc r || noLatLong r)) ∧
    ∀ r : Record,
      (r.longitude = mkRat (-20123706) 100000 →
        (fixAnomaly r).borough = some "MANHATTAN" ∧
          (fixAnomaly r).longitude = mkRat (-7395337) 100000) ∧
      (r.longitude ≠ mkRat (-20123706) 100000 → fixAnomaly r = r) := by
  refine ⟨fun raw => rfl, fun r => ⟨fun h => ?_, fun h => ?_⟩⟩
  · simp [fixAnomaly, h]
  · simp [fixAnomaly, h]

/-- Witness for C3: the correction applied to a concrete anomalous record
and to a concrete ordinary record. -/
theorem fix_anomaly_exactly_on_sentinel_longitude_witness :
    ((fixAnomaly (sampleRecord 2013 none (mkRat 407 10)
        (mkRat (-20123706) 100000))).borough = some "MANHATTAN" ∧
      (fixAnomaly (sampleRecord 2013 none (mkRat 407 10)
        (mkRat (-20123706) 100000))).longitude = mkRat (-7395337) 100000) ∧
    fixAnomaly (fillNaCoords rawQueens2013) = fillNaCoords rawQueens2013 :=
  ⟨(fix_anomaly_exactly_on_sentinel_longitude.2 _).1 (by decide),
   (fix_anomaly_exactly_on_sentinel_longitude.2 _).2 (by decide)⟩

/-! ### Claims about `df_filter_by` -/

/-- C5: filtering by borough and then by year gives the same record set
as filtering by year and then by borough, for every record set and every
pair of values (sequential application composed with `Option.bind`, since
`df_filter_by` returns an optional record set). -/
theorem df_filter_by_borough_year_commutes
    (df : List Record) (b y : ColValue) :
    (df_filter_by df "borough" b).bind (fun d => df_filter_by d "year" y) =
      (df_filter_by df "year" y).bind (fun d => df_filter_by d "borough" b) :=
  congrArg some
    (filter_comm_bool (fun r => recMatches r "borough" b)
      (fun r => recMatches r "year" y) df)

/-- C10: `df_filter_by` called with a column selector outside
`{borough, year, month, day, hour}` returns `none` (Python `None`), not
an error and not an empty record set. -/
theorem df_filter_by_unknown_column_returns_none
    (df : List Record) (col : String) (v : ColValue)
    (h1 : col ≠ "borough") (h2 : col ≠ "year") (h3 : col ≠ "month")
    (h4 : col ≠ "day") (h5 : col ≠ "hour") :
    df_filter_by df col v = none := by
  simp [df_filter_by, h1, h2, h3, h4, h5]

/-- Witness for C10: the selector `"weekday"` (not a recognized column
name) yields `none` on a concrete record set. -/
theorem df_filter_by_unknown_column_returns_none_witness :
    df_filter_by [fillNaCoords rawQueens2013] "weekday" (.str "Sunday") = none :=
  df_filter_by_unknown_column_returns_none _ _ _ (by decide) (by decide)
    (by decide) (by decide) (by decide)

/-! ### Claims about the aggregator -/

/-- The 3-row scenario input of the spec: crash years 2013, 2013, 2014
with boroughs MANHATTAN, QUEENS, MANHATTAN (valid in-city coordinates). -/
def threeRowInput : List Record :=
  [sampleRecord 2013 (some "MANHATTAN") (mkRat 407 10) (mkRat (-739) 10),
   sampleRecord 2013 (some "QUEENS") (mkRat 407 10) (mkRat (-739) 10),
   sampleRecord 2014 (some "MANHATTAN") (mkRat 407 10) (mkRat (-739) 10)]

/-- C8 (counterexample): aggregating the 3-row input by borough and year
does not produce the two-key table `{MANHATTAN: [1,1], QUEENS: [1,0]}`:
the aggregator always iterates all eight years of `YEARS` and all five
boroughs, and it keys the borough table by `BOROUGH_COORDS` values
(centroid pairs), not borough names. -/
theorem three_row_borough_table_is_not_two_key :
    query_accidents_by_value_and_year threeRowInput "borough" boroughColumnDict ≠
      [(.str "MANHATTAN", [1, 1]), (.str "QUEENS", [1, 0])] := by
  decide

/-- C8 (amended): the 3-row input aggregated by borough and year yields
the table over all five boroughs (keyed by their centroid coordinate
pairs, in declared order) and all eight years 2013-2020; the MANHATTAN
row is `[1,1,0,0,0,0,0,0]` and the QUEENS row is `[1,0,0,0,0,0,0,0]`. -/
theorem three_row_borough_table_value :
    YEARS = [2013, 2014, 2015, 2016, 2017, 2018, 2019, 2020] ∧
    query_accidents_by_value_and_year threeRowInput "borough" boroughColumnDict =
      [(.pair (mkRat 4058 100) (mkRat 7415 100), [0, 0, 0, 0, 0, 0, 0, 0]),
       (.pair (mkRat 4084 100) (mkRat 7386 100), [0, 0, 0, 0, 0, 0, 0, 0]),
       (.pair (mkRat 4073 100) (mkRat 7379 100), [1, 0, 0, 0, 0, 0, 0, 0]),
       (.pair (mkRat 4078 100) (mkRat 7397 100), [1, 1, 0, 0, 0, 0, 0, 0]),
       (.pair (mkRat 4068 100) (mkRat 7394 100), [0, 0, 0, 0, 0, 0, 0, 0])] := by
  constructor
  · rfl
  · decide

/-! ### Structure of the defaultdict fold -/

/-- Appending under a key absent from a table puts the key at the end. -/
theorem ddAppend_fresh {κ β : Type} [DecidableEq κ]
    (T : List (κ × List β)) (k : κ) (v : β) (h : k ∉ T.map Prod.fst) :
    ddAppend T k v = T ++ [(k, [v])] := by
  induction T with
  | nil => rfl
  | cons p T ih =>
    obtain ⟨k', vs⟩ := p
    simp only [List.map_cons, List.mem_cons, not_or] at h
    rw [ddAppend, if_neg (fun hk => h.1 hk.symm), ih h.2]
    rfl

/-- Appending under a key absent from a prefix of the table skips the
whole prefix. -/
theorem ddAppend_prefix_skip {κ β : Type} [DecidableEq κ]
    (T T' : List (κ × List β)) (k : κ) (v : β) (h : k ∉ T.map Prod.fst) :
    ddAppend (T ++ T') k v = T ++ ddAppend T' k v := by
  induction T with
  | nil => rfl
  | cons p T ih =>
    obtain ⟨k', vs⟩ := p
    simp only [List.map_cons, List.mem_cons, not_or] at h
    rw [List.cons_append, ddAppend, if_neg (fun hk => h.1 hk.symm), ih h.2]
    rfl

/-- One inner pass of the aggregation loop over categories whose keys are
all fresh builds one singleton list per category, in iteration order. -/
theorem foldl_ddAppend_fresh {κ γ β : Type} [DecidableEq κ]
    (key : γ → κ) (f : γ → β) :
    ∀ (pending : List γ) (T : List (κ × List β)),
      (pending.map key).Nodup → (∀ x ∈ pending, key x ∉ T.map Prod.fst) →
      pending.foldl (fun c x => ddAppend c (key x) (f x)) T =
        T ++ pending.map (fun x => (key x, [f x])) := by
  intro pending
  induction pending with
  | nil => intro T _ _; simp
  | cons x xs ih =>
    intro T hnd hfresh
    rw [List.foldl_cons, ddAppend_fresh T (key x) (f x) (hfresh x (by simp))]
    rw [ih (T ++ [(key x, [f x])]) (by simpa using hnd.of_cons) ?hf]
    · simp
    case hf =>
      intro z hz
      simp only [List.map_append, List.mem_append, List.map_cons, not_or]
      refine ⟨fun hk => hfresh z (by simp [hz]) hk, ?_⟩
      have hne : key x ≠ key z := by
        have := hnd
        rw [List.map_cons, List.nodup_cons] at this
        exact fun he => this.1 (he ▸ List.mem_map_of_mem key hz)
      simpa using fun he => hne he.symm

/-- One inner pass of the aggregation loop over categories that are all
already present (with distinct keys) appends one count to each
category's list, preserving the key order. -/
theorem foldl_ddAppend_update {κ γ β : Type} [DecidableEq κ]
    (key : γ → κ) (f : γ → β) (g : γ → List β) :
    ∀ (pending processed : List γ),
      ((processed ++ pending).map key).Nodup →
      pending.foldl (fun c x => ddAppend c (key x) (f x))
          (processed.map (fun x => (key x, g x ++ [f x])) ++
            pending.map (fun x => (key x, g x))) =
        (processed ++ pending).map (fun x => (key x, g x ++ [f x])) := by
  intro pending
  induction pending with
  | nil => intro processed _; simp
  | cons x xs ih =>
    intro processed hnd
    have hx_notin : key x ∉ (processed.map (fun z => (key z, g z ++ [f z]))).map Prod.fst := by
      rw [List.map_append] at hnd
      have hdisj := List.disjoint_of_nodup_append hnd
      simp only [List.map_map, List.map_cons]
      intro hmem
      exact hdisj (by simpa using hmem) (by simp)
    rw [List.foldl_cons, ddAppend_prefix_skip _ _ _ _ hx_notin,
      List.map_cons, ddAppend, if_pos rfl]
    have step : processed.map (fun z => (key z, g z ++ [f z])) ++
        (key x, g x ++ [f x]) :: xs.map (fun z => (key z, g z)) =
        (processed ++ [x]).map (fun z => (key z, g z ++ [f z])) ++
          xs.map (fun z => (key z, g z)) := by
      simp
    rw [step, ih (processed ++ [x]) (by simpa using hnd)]
    simp

/-- Folding further years over a fully-built table appends one count per
year, in year order, to every category list. -/
theorem foldl_year_update {κ γ : Type} [DecidableEq κ]
    (cats : List γ) (key : γ → κ) (cnt : Nat → γ → Nat) :
    ∀ (ys : List Nat) (g : γ → List Nat),
      (cats.map key).Nodup →
      ys.foldl
          (fun counts y =>
            cats.foldl (fun c x => ddAppend c (key x) (cnt y x)) counts)
          (cats.map (fun x => (key x, g x))) =
        cats.map (fun x => (key x, g x ++ ys.map (fun y => cnt y x))) := by
  intro ys
  induction ys with
  | nil => intro g _; simp
  | cons y ys ih =>
    intro g hnd
    rw [List.foldl_cons]
    have hstep := foldl_ddAppend_update key (cnt y) g cats [] (by simpa using hnd)
    simp only [List.map_nil, List.nil_append] at hstep
    rw [hstep, ih (fun x => g x ++ [cnt y x]) hnd]
    simp

/-- The nested defaultdict fold, started from the empty table, produces
exactly one entry per category (in iteration order), whose list has one
count per year (in year order). -/
theorem foldl_query_general {γ : Type}
    (cats : List γ) (key : γ → TableKey) (cnt : Nat → γ → Nat)
    (h : (cats.map key).Nodup) (y0 : Nat) (ys : List Nat) :
    (y0 :: ys).foldl
        (fun counts y =>
          cats.foldl (fun c x => ddAppend c (key x) (cnt y x)) counts)
        [] =
      cats.map (fun x => (key x, (y0 :: ys).map (fun y => cnt y x))) := by
  rw [List.foldl_cons,
    foldl_ddAppend_fresh key (cnt y0) cats [] h (by simp),
    List.nil_append,
    foldl_year_update cats key cnt ys (fun x => [cnt y0 x]) h]
  simp

/-- The count table of `query_accidents_by_value_and_year`, described in
closed form: when the display keys of the requested categories are
distinct (true of every enumeration the source passes), the table has
one entry per category in iteration order, and each entry's list holds
the per-year row counts in the ascending order of `YEARS`. -/
theorem query_structure (df : List Record) (col : String) (cd : ColumnDict)
    (h : ((catPairs cd).map Prod.snd).Nodup) :
    query_accidents_by_value_and_year df col cd =
      (catPairs cd).map (fun vk => (vk.2,
        YEARS.map (fun y =>
          (filterBy (filterBy df "year" (.nat y)) col vk.1).length))) := by
  show ((2013 : Nat) :: List.range' 2014 7).foldl
      (fun counts y =>
        (catPairs cd).foldl
          (fun c vk =>
            ddAppend c vk.2 (filterBy (filterBy df "year" (.nat y)) col vk.1).length)
          counts)
      [] =
    (catPairs cd).map (fun vk => (vk.2,
      ((2013 : Nat) :: List.range' 2014 7).map (fun y =>
        (filterBy (filterBy df "year" (.nat y)) col vk.1).length)))
  exact foldl_query_general (catPairs cd) Prod.snd
    (fun y vk => (filterBy (filterBy df "year" (.nat y)) col vk.1).length)
    h 2013 (List.range' 2014 7)

/-- `filterBy` (the aggregator's view of `df_filter_by`) is row filtering
by `recMatches`, for every column selector: on the five recognized
selectors this is the definition, and on unrecognized selectors both
sides are empty. -/
theorem filterBy_eq_filter (l : List Record) (col : String) (v : ColValue) :
    filterBy l col v = l.filter (fun r => recMatches r col v) := by
  by_cases h1 : col = "borough"
  · subst h1; rfl
  · by_cases h2 : col = "year"
    · subst h2; rfl
    · by_cases h3 : col = "month"
      · subst h3; rfl
      · by_cases h4 : col = "day"
        · subst h4; rfl
        · by_cases h5 : col = "hour"
          · subst h5; rfl
          · rw [show filterBy l col v = [] from by
              simp [filterBy, df_filter_by, h1, h2, h3, h4, h5]]
            rw [show (fun r => recMatches r col v) = (fun _ : Record => false) from
              funext fun r => by simp [recMatches, h1, h2, h3, h4, h5]]
            simp

/-- Counting rows satisfying a disjunction of two disjoint predicates
splits into a sum. -/
theorem countP_or_disjoint {α : Type} (p q : α → Bool) :
    ∀ l : List α, (∀ a ∈ l, ¬(p a = true ∧ q a = true)) →
      l.countP (fun a => p a || q a) = l.countP p + l.countP q := by
  intro l
  induction l with
  | nil => intro _; simp
  | cons a l ih =>
    intro h
    have ha := h a (List.mem_cons_self a l)
    have hl := ih (fun b hb => h b (List.mem_cons_of_mem a hb))
    rw [List.countP_cons, List.countP_cons, List.countP_cons, hl]
    by_cases hp : p a <;> by_cases hq : q a <;>
      simp [hp, hq] at ha ⊢ <;> omega

/-- Summing the per-category row counts over pairwise-disjoint category
predicates counts the rows matching some category. -/
theorem sum_countP_pairwise_disjoint {α γ : Type} (m : γ → α → Bool) (l : List α) :
    ∀ ps : List γ,
      ps.Pairwise (fun v w => ∀ a ∈ l, ¬(m v a = true ∧ m w a = true)) →
      (ps.map (fun v => l.countP (m v))).sum =
        l.countP (fun a => ps.any (fun v => m v a)) := by
  intro ps
  induction ps with
  | nil => intro _; simp
  | cons v vs ih =>
    intro h
    rw [List.map_cons, List.sum_cons, ih h.of_cons]
    have hdisj : ∀ a ∈ l, ¬(m v a = true ∧ (vs.any (fun w => m w a)) = true) := by
      intro a ha hand
      obtain ⟨hva, hanyw⟩ := hand
      obtain ⟨w, hw, hwa⟩ := List.any_eq_true.mp hanyw
      exact (List.pairwise_cons.mp h).1 w hw a ha ⟨hva, hwa⟩
    have hsplit : l.countP (fun a => (v :: vs).any (fun w => m w a)) =
        l.countP (m v) + l.countP (fun a => vs.any (fun w => m w a)) := by
      simp only [List.any_cons]
      exact countP_or_disjoint _ _ l hdisj
    rw [hsplit]

/-- C4 (amended): for categories with distinct display keys and pairwise
disjoint row predicates (true of every enumeration the source passes),
summing the count-table entries at the position of a year across all
categories equals the number of records in that year's filtered subset
that match SOME requested category — not, in general, the whole subset:
records matching no category (e.g. a null borough under the borough
dimension) are counted by no bucket. -/
theorem query_sum_counts_rows_matching_some_category
    (df : List Record) (col : String) (cd : ColumnDict)
    (hkeys : ((catPairs cd).map Prod.snd).Nodup)
    (hdisj : (catPairs cd).Pairwise (fun v w => ∀ r : Record,
      ¬(recMatches r col v.1 = true ∧ recMatches r col w.1 = true)))
    (i y : Nat) (hy : YEARS[i]? = some y) :
    ((query_accidents_by_value_and_year df col cd).map
        (fun kv => kv.2.getD i 0)).sum =
      ((filterBy df "year" (.nat y)).filter
        (fun r => (catPairs cd).any (fun vk => recMatches r col vk.1))).length := by
  rw [query_structure df col cd hkeys]
  have hget : ∀ vk ∈ catPairs cd,
      ((fun kv : TableKey × List Nat => kv.2.getD i 0) ∘
        (fun vk : ColValue × TableKey => (vk.2, YEARS.map (fun yy =>
          (filterBy (filterBy df "year" (.nat yy)) col vk.1).length)))) vk =
        (filterBy df "year" (.nat y)).countP (fun r => recMatches r col vk.1) := by
    intro vk _
    show (YEARS.map (fun yy =>
        (filterBy (filterBy df "year" (.nat yy)) col vk.1).length)).getD i 0 = _
    rw [List.getD_eq_getElem?_getD, List.getElem?_map, hy, Option.map_some',
      Option.getD_some, filterBy_eq_filter]
    exact (List.countP_eq_length_filter _ _).symm
  rw [List.map_map, List.map_congr_left hget, ← List.countP_eq_length_filter]
  exact sum_countP_pairwise_disjoint (fun vk r => recMatches r col vk.1)
    (filterBy df "year" (.nat y)) (catPairs cd)
    (hdisj.imp (fun hvw => fun a _ => hvw a))

/-- C4 (counterexample): on a one-row input whose record has a null
borough (retained by cleaning on the strength of nonzero coordinates),
the borough count table sums to 0 at the position of year 2013 (index 0)
while that year's filtered subset has 1 row. -/
theorem borough_table_sum_misses_null_borough_rows :
    ((query_accidents_by_value_and_year
        [sampleRecord 2013 none (mkRat 407 10) (mkRat (-739) 10)]
        "borough" boroughColumnDict).map (fun kv => kv.2.getD 0 0)).sum ≠
      (filterBy [sampleRecord 2013 none (mkRat 407 10) (mkRat (-739) 10)]
        "year" (.nat 2013)).length := by
  decide

/-- Matching the month column against two values pins both to the
record's month, so the values agree. -/
theorem recMatches_month_functional (r : Record) (a b : Nat)
    (ha : recMatches r "month" (.nat a) = true)
    (hb : recMatches r "month" (.nat b) = true) : a = b := by
  have ha' : (r.crashTime.month == a) = true := ha
  have hb' : (r.crashTime.month == b) = true := hb
  simp only [beq_iff_eq] at ha' hb'
  omega

/-- A two-category month enumeration used as a concrete witness input. -/
def twoMonthCats : ColumnDict := ColumnDict.list [.nat 1, .nat 2]

/-- Witness for C4: on a concrete one-row input and the two-category
month enumeration, the hypotheses hold and the sum at the position of
year 2013 equals the count of matching rows. -/
theorem query_sum_counts_rows_matching_some_category_witness :
    ((catPairs twoMonthCats).map Prod.snd).Nodup ∧
    (catPairs twoMonthCats).Pairwise (fun v w => ∀ r : Record,
      ¬(recMatches r "month" v.1 = true ∧ recMatches r "month" w.1 = true)) ∧
    YEARS[0]? = some 2013 ∧
    ((query_accidents_by_value_and_year
        [sampleRecord 2013 (some "MANHATTAN") (mkRat 407 10) (mkRat (-739) 10)]
        "month" twoMonthCats).map (fun kv => kv.2.getD 0 0)).sum =
      ((filterBy [sampleRecord 2013 (some "MANHATTAN") (mkRat 407 10)
          (mkRat (-739) 10)] "year" (.nat 2013)).filter
        (fun r => (catPairs twoMonthCats).any
          (fun vk => recMatches r "month" vk.1))).length := by
  have hkeys : ((catPairs twoMonthCats).map Prod.snd).Nodup := by decide
  have hpair : (catPairs twoMonthCats).Pairwise (fun v w => ∀ r : Record,
      ¬(recMatches r "month" v.1 = true ∧ recMatches r "month" w.1 = true)) := by
    show List.Pairwise _
      [(ColValue.nat 1, TableKey.nat 1), (ColValue.nat 2, TableKey.nat 2)]
    refine List.pairwise_cons.mpr ⟨?_, ?_⟩
    · intro w hw r hand
      have hw' : w = (ColValue.nat 2, TableKey.nat 2) := by simpa using hw
      subst hw'
      exact absurd (recMatches_month_functional r 1 2 hand.1 hand.2) (by decide)
    · simp
  exact ⟨hkeys, hpair, rfl,
    query_sum_counts_rows_matching_some_category _ "month" twoMonthCats
      hkeys hpair 0 2013 rfl⟩

/-- C7: count tables order per-category count sequences positionally by
ascending year 2013..2020 (index 0 is 2013, index 7 is 2020) and iterate
categories in the canonical enumeration order — months 1-12, weekdays
Sunday-first, hours 0-23, boroughs in the declared `BOROUGH_COORDS`
order.  The final conjunct gives the closed form of any table whose
display keys are distinct: one entry per category in iteration order,
each holding `YEARS`-indexed counts. -/
theorem count_table_orders_years_ascending_and_categories_canonically :
    YEARS = [2013, 2014, 2015, 2016, 2017, 2018, 2019, 2020] ∧
    (catPairs monthsColumnDict).map Prod.fst =
      [1, 2, 3, 4, 5, 6, 7, 8, 9, 10, 11, 12].map ColValue.nat ∧
    (catPairs daysColumnList).map Prod.fst =
      ["Sunday", "Monday", "Tuesday", "Wednesday", "Thursday", "Friday",
        "Saturday"].map ColValue.str ∧
    (catPairs hoursColumnList).map Prod.fst = (List.range 24).map ColValue.nat ∧
    (catPairs boroughColumnDict).map Prod.fst =
      ["STATEN ISLAND", "BRONX", "QUEENS", "MANHATTAN",
        "BROOKLYN"].map ColValue.str ∧
    ∀ (df : List Record) (col : String) (cd : ColumnDict),
      ((catPairs cd).map Prod.snd).Nodup →
      query_accidents_by_value_and_year df col cd =
        (catPairs cd).map (fun vk => (vk.2, YEARS.map (fun y =>
          (filterBy (filterBy df "year" (.nat y)) col vk.1).length))) :=
  ⟨rfl, rfl, rfl, rfl, rfl, query_structure⟩

/-- Witness for C7: the closed form evaluated on the empty record set
with the month enumeration (whose twelve display keys are distinct). -/
theorem count_table_orders_years_ascending_witness :
    ((catPairs monthsColumnDict).map Prod.snd).Nodup ∧
    query_accidents_by_value_and_year [] "month" monthsColumnDict =
      (catPairs monthsColumnDict).map (fun vk => (vk.2, YEARS.map (fun y =>
        (filterBy (filterBy ([] : List Record) "year" (.nat y)) "month"
          vk.1).length))) :=
  ⟨by decide,
   count_table_orders_years_ascending_and_categories_canonically.2.2.2.2.2
     [] "month" monthsColumnDict (by decide)⟩
